import Mathlib

/-!
# Verification of the Rocket arcade-game core

Shallow embedding of `src/main.rs` of the `rocket` repository.  The repository
sources available here consist of `main.rs` only; the modules `controllers`
(`TimeController`, `CollisionsController`, `InputController`, `Event`),
`game_state` (`GameState`) and `models` are declared and called from `main.rs`
but their files are absent, so their behaviour is modelled from the
specification (each such definition carries a doc comment starting
`Modelled from the spec:`).  `main.rs` itself — `ApplicationState` and its
`new`, `reset`, `update`, `draw`, `key_down_event` handlers — is embedded
directly from the source.

All `f32` arithmetic of the game is modelled over `ℚ`; the randomness source
(`ThreadRng`) is modelled as an explicitly threaded linear-congruential seed,
as the spec directs ("a single process-scoped generator threaded explicitly").
-/

namespace Rocket

/-- Geometry: `Size` — width/height pair defining the arena's rectangular
bounds (external `geometry` crate; field layout from the spec data model). -/
structure Size where
  width : ℚ
  height : ℚ
deriving DecidableEq, Repr

/-- Geometry: a 2D point (external `geometry` crate). -/
structure Point where
  x : ℚ
  y : ℚ
deriving DecidableEq, Repr

/-- Clamp a scalar into the closed interval `[lo, hi]` (hard stop, no bounce). -/
def clampQ (lo hi x : ℚ) : ℚ := max lo (min hi x)

/-- Clamp a point into the arena rectangle `[0, width] × [0, height]`. -/
def clampPoint (s : Size) (p : Point) : Point :=
  ⟨clampQ 0 s.width p.x, clampQ 0 s.height p.y⟩

/-- A point lies within the arena bounds. -/
def Point.inBounds (p : Point) (s : Size) : Prop :=
  0 ≤ p.x ∧ p.x ≤ s.width ∧ 0 ≤ p.y ∧ p.y ≤ s.height

instance (p : Point) (s : Size) : Decidable (p.inBounds s) := by
  unfold Point.inBounds; infer_instance

/-- Modelled from the spec: `Event` (module `controllers`, absent from the
sources) — "an enumerated, data-light notification.  Variants at minimum:
`GameStart` …, `Collision` …, and spawn/score notifications". -/
inductive Event where
  | GameStart
  | Collision
  | ObstacleSpawned
deriving DecidableEq, Repr

/-- Modelled from the spec: the player entity (module `models`, absent from
the sources) — position and shape extent; the shape is modelled as a circle
of the given radius for the exact overlap predicate. -/
structure Player where
  pos : Point
  radius : ℚ
deriving DecidableEq, Repr

/-- Modelled from the spec: an obstacle entity (module `models`, absent from
the sources) — position, spawn-time velocity, and circular shape extent.
Liveness is modelled by membership in `GameState.obstacles`. -/
structure Obstacle where
  pos : Point
  vel : Point
  radius : ℚ
deriving DecidableEq, Repr

/-- Modelled from the spec: `GameState` (module `game_state`, absent from the
sources) — arena bounds, the single player, the ordered collection of live
obstacles (insertion order = spawn order), and the optional terminal
message. -/
structure GameState where
  size : Size
  player : Player
  obstacles : List Obstacle
  message : Option String
deriving DecidableEq, Repr

/-- Modelled from the spec: the player's circular shape extent (the spec
leaves the concrete value to the implementation). -/
def playerRadius : ℚ := 10

/-- Modelled from the spec: the player's speed for translating held actions
into velocity (scenario C fixes displacement `(0, -speed)` for one second of
move-up). -/
def playerSpeed : ℚ := 200

/-- Modelled from the spec: newly spawned obstacles' speed. -/
def obstacleSpeed : ℚ := 100

/-- Modelled from the spec: newly spawned obstacles' circular shape extent. -/
def obstacleRadius : ℚ := 10

/-- Modelled from the spec: the base spawn-timer threshold (seconds). -/
def spawnInterval : ℚ := 1

/-- Modelled from the spec: the canonical deterministic player placement of
`GameState::new` — the arena's center. -/
def canonicalPlayer (size : Size) : Player :=
  ⟨⟨size.width / 2, size.height / 2⟩, playerRadius⟩

/-- Modelled from the spec: the randomness source (`ThreadRng`), threaded
explicitly — one step of a linear-congruential generator. -/
def rngStep (seed : Nat) : Nat × Nat :=
  let s := (seed * 1103515245 + 12345) % 2147483648
  (s, s)

/-- Modelled from the spec: `GameState::new(size, rng)` (module `game_state`,
absent from the sources) — "builds an arena of the given bounds, places the
player at a canonical position (center or edge, deterministic), empty
obstacle list, no message.  Never fails."  The deterministic placement
consumes no randomness; the generator is threaded through unchanged. -/
def GameState.new (size : Size) (rng : Nat) : GameState × Nat :=
  (⟨size, canonicalPlayer size, [], none⟩, rng)

/-- Modelled from the spec: `GameState::reset(rng)` (module `game_state`,
absent from the sources) — "returns the world to the same state as `new`,
consuming fresh randomness for any randomized initial placement". -/
def GameState.reset (gs : GameState) (rng : Nat) : GameState × Nat :=
  GameState.new gs.size rng

/-- Modelled from the spec: `TimeController` (module `controllers`, absent
from the sources) — "internal timers driving spawn cadence (accumulated time
since last spawn, next spawn threshold — possibly randomized per spawn)". -/
structure TimeController where
  spawnTimer : ℚ
  spawnThreshold : ℚ
deriving DecidableEq, Repr

/-- Modelled from the spec: `TimeController::new()` — zero all internal
timers. -/
def TimeController.new : TimeController :=
  ⟨0, spawnInterval⟩

/-- Modelled from the spec: `TimeController::reset()` — zero all internal
timers, returning them to their `new` configuration. -/
def TimeController.reset (_tc : TimeController) : TimeController :=
  TimeController.new

/-- Modelled from the spec: the set of discrete input actions valid for the
current frame (move-up / move-down / move-left / move-right). -/
structure Actions where
  up : Bool
  down : Bool
  left : Bool
  right : Bool
deriving DecidableEq, Repr

/-- Key codes forwarded by the presentation layer (ggez `KeyInput`),
abstracted to the actions the game reads plus an opaque remainder. -/
inductive Key where
  | up
  | down
  | left
  | right
  | other (code : Nat)
deriving DecidableEq, Repr

/-- Modelled from the spec: `InputController` (module `controllers`, absent
from the sources) — "a mapping from currently-held key codes to a derived set
of actions"; session-scoped held-key bookkeeping. -/
structure InputController where
  held : List Key
deriving DecidableEq, Repr

/-- Modelled from the spec: `InputController::new()` — no keys held. -/
def InputController.new : InputController := ⟨[]⟩

/-- Modelled from the spec: `InputController::key_press` — record the key as
currently held. -/
def InputController.key_press (ic : InputController) (k : Key) : InputController :=
  if k ∈ ic.held then ic else ⟨k :: ic.held⟩

/-- Modelled from the spec: `InputController::key_release` — forget the
key. -/
def InputController.key_release (ic : InputController) (k : Key) : InputController :=
  ⟨ic.held.filter (fun x => decide (x ≠ k))⟩

/-- Modelled from the spec: `InputController::actions()` — the de-duplicated
set of actions derived from the currently held keys. -/
def InputController.actions (ic : InputController) : Actions :=
  ⟨Key.up ∈ ic.held, Key.down ∈ ic.held, Key.left ∈ ic.held, Key.right ∈ ic.held⟩

/-- Modelled from the spec: translate the frame's actions into a velocity
(opposing held directions cancel; screen y grows downward, so move-up is
negative y, per scenario C: "resulting position equals start plus
(0, -speed)"). -/
def actionVelocity (a : Actions) : Point :=
  ⟨playerSpeed * ((if a.right then 1 else 0) - (if a.left then 1 else 0)),
   playerSpeed * ((if a.down then 1 else 0) - (if a.up then 1 else 0))⟩

/-- An obstacle has fully exited the arena on the trailing side (obstacles
traverse right-to-left; lifecycle end, not a collision). -/
def obstacleExited (o : Obstacle) : Bool :=
  decide (o.pos.x + o.radius < 0)

/-- Modelled from the spec: spawn "a new obstacle at a randomized valid
position/velocity (drawn from `rng`)" — placed at the right edge at a random
height, moving left at `obstacleSpeed`. -/
def spawnObstacle (gs : GameState) (rng : Nat) : Obstacle × Nat :=
  let r := rngStep rng
  let y : ℚ := ((r.1 % 1024 : Nat) : ℚ) / 1024 * gs.size.height
  (⟨⟨gs.size.width, y⟩, ⟨-obstacleSpeed, 0⟩, obstacleRadius⟩, r.2)

/-- Modelled from the spec: the next spawn threshold, "optionally randomized
within a band to avoid periodicity". -/
def nextThreshold (rng : Nat) : ℚ × Nat :=
  let r := rngStep rng
  (spawnInterval + ((r.1 % 256 : Nat) : ℚ) / 256, r.2)

/-- Modelled from the spec: `TimeController::update_seconds(delta, actions,
game_state, event_buffer, rng)` (module `controllers`, absent from the
sources).  Per §4.2 of the spec: it refuses to mutate a finished world
(`message` is `Some`); a malformed (negative) delta is defensively treated as
zero; it applies the action-derived velocity scaled by `delta` and clamps the
player's position to the arena bounds; it advances each obstacle by its own
velocity scaled by `delta` and removes obstacles that have fully exited on
the trailing side; it advances the spawn timer and, when the timer crosses
its threshold, spawns a randomized obstacle, resets the timer to a fresh
randomized threshold, and appends a spawn `Event`.  Returns the mutated
controller, game state, event buffer and generator. -/
def TimeController.update_seconds (tc : TimeController) (delta : ℚ) (acts : Actions)
    (gs : GameState) (buf : List Event) (rng : Nat) :
    TimeController × GameState × List Event × Nat :=
  if gs.message.isSome then (tc, gs, buf, rng)
  else
    let d := max delta 0
    let v := actionVelocity acts
    let newPos := clampPoint gs.size ⟨gs.player.pos.x + v.x * d, gs.player.pos.y + v.y * d⟩
    let movedObs := gs.obstacles.map
      (fun o => { o with pos := ⟨o.pos.x + o.vel.x * d, o.pos.y + o.vel.y * d⟩ })
    let keptObs := movedObs.filter (fun o => !obstacleExited o)
    let timer := tc.spawnTimer + d
    if tc.spawnThreshold ≤ timer then
      let ob := spawnObstacle gs rng
      let thr := nextThreshold ob.2
      (⟨0, thr.1⟩,
       { gs with player := { gs.player with pos := newPos }, obstacles := keptObs ++ [ob.1] },
       buf ++ [Event.ObstacleSpawned], thr.2)
    else
      ({ tc with spawnTimer := timer },
       { gs with player := { gs.player with pos := newPos }, obstacles := keptObs },
       buf, rng)

/-- Modelled from the spec: the circle-overlap predicate between the player's
shape and an obstacle's shape (the shared geometry shape-overlap primitive,
exact, not an approximation). -/
def overlaps (p : Player) (o : Obstacle) : Bool :=
  decide ((p.pos.x - o.pos.x) ^ 2 + (p.pos.y - o.pos.y) ^ 2 ≤ (p.radius + o.radius) ^ 2)

/-- The player overlaps at least one live obstacle. -/
def playerHit (gs : GameState) : Bool :=
  gs.obstacles.any (fun o => overlaps gs.player o)

/-- Modelled from the spec: the fixed "game over" prompt text. -/
def gameOverMessage : String := "Game over! Press any key to restart"

namespace CollisionsController

/-- Modelled from the spec: `CollisionsController::handle_collisions(game_state,
time_controller, event_buffer)` (module `controllers`, absent from the
sources).  Per §4.3 of the spec: pairwise overlap testing between the player
and every live obstacle; on overlap this is terminal — set `message` to the
fixed prompt and append a `Collision` event, leaving the world otherwise
frozen until an external reset (so a finished world is not touched again);
with no overlap the pass is a no-op.  Returns the mutated game state,
controller and event buffer. -/
def handle_collisions (gs : GameState) (tc : TimeController) (buf : List Event) :
    GameState × TimeController × List Event :=
  if gs.message.isSome then (gs, tc, buf)
  else if playerHit gs then
    ({ gs with message := some gameOverMessage }, tc, buf ++ [Event.Collision])
  else (gs, tc, buf)

end CollisionsController

/-- Struct `ApplicationState` (from `src/main.rs`): window focus, the game state,
the two controllers, the event buffer and the randomness source.
`Resources` (loaded fonts/images/sounds) is presentation-only data with no
bearing on the core and is omitted. -/
structure ApplicationState where
  has_focus : Bool
  game_state : GameState
  time_controller : TimeController
  input_controller : InputController
  event_buffer : List Event
  rng : Nat
deriving DecidableEq, Repr

/-- Source `ApplicationState::new` (from `src/main.rs`): focus true, fresh game
state, fresh controllers, empty event buffer.  The `Context` parameter feeds
only the omitted `Resources`; the function always returns `Ok`. -/
def ApplicationState.new (game_size : Size) (seed : Nat) : ApplicationState :=
  let g := GameState.new game_size seed
  { has_focus := true
    game_state := g.1
    time_controller := TimeController.new
    input_controller := InputController.new
    event_buffer := []
    rng := g.2 }

/-- Source `ApplicationState::reset` (from `src/main.rs`): reset the time
controller, reset the game state with fresh randomness, and push
`Event::GameStart` onto the event buffer (no clearing). -/
def ApplicationState.reset (s : ApplicationState) : ApplicationState :=
  let tc := s.time_controller.reset
  let g := s.game_state.reset s.rng
  { s with
    time_controller := tc
    game_state := g.1
    rng := g.2
    event_buffer := s.event_buffer ++ [Event.GameStart] }

/-- Source `ApplicationState::update` (from `src/main.rs`): if the window has no
focus, return immediately (`Ok(())`, nothing mutated); otherwise run
`TimeController::update_seconds` with the frame delta and current actions,
then `CollisionsController::handle_collisions`.  The Rust function always
returns `Ok`, so the embedding is total. -/
def ApplicationState.update (s : ApplicationState) (delta : ℚ) : ApplicationState :=
  if s.has_focus = false then s
  else
    let r := s.time_controller.update_seconds delta s.input_controller.actions
      s.game_state s.event_buffer s.rng
    let c := CollisionsController.handle_collisions r.2.1 r.1 r.2.2.1
    { s with
      game_state := c.1
      time_controller := c.2.1
      event_buffer := c.2.2
      rng := r.2.2.2 }

/-- Source `ApplicationState::draw` (from `src/main.rs`): `view::play_sounds` drains
(iterates and clears) the event buffer; rendering reads state but mutates
nothing.  Returns the post-draw state and the drained event sequence. -/
def ApplicationState.draw (s : ApplicationState) : ApplicationState × List Event :=
  ({ s with event_buffer := [] }, s.event_buffer)

/-- Source `ApplicationState::key_down_event` (from `src/main.rs`): if a message is
displayed, hide it and reset the game; then forward the key to
`InputController::key_press`. -/
def ApplicationState.key_down_event (s : ApplicationState) (k : Key) : ApplicationState :=
  let s1 := if s.game_state.message.isSome then s.reset else s
  { s1 with input_controller := s1.input_controller.key_press k }

/-- Source `ApplicationState::key_up_event` (from `src/main.rs`): forward the key to
`InputController::key_release`. -/
def ApplicationState.key_up_event (s : ApplicationState) (k : Key) : ApplicationState :=
  { s with input_controller := s.input_controller.key_release k }

/-- Source `ApplicationState::focus_event` (from `src/main.rs`): record the new
focus flag. -/
def ApplicationState.focus_event (s : ApplicationState) (f : Bool) : ApplicationState :=
  { s with has_focus := f }

/-- Run a sequence of frame integrations: each list entry is the frame's
`(delta, actions)` pair, fed through `TimeController.update_seconds` with the
world state threaded along. -/
def runSeconds : List (ℚ × Actions) → TimeController → GameState → List Event → Nat →
    TimeController × GameState × List Event × Nat
  | [], tc, gs, buf, rng => (tc, gs, buf, rng)
  | step :: rest, tc, gs, buf, rng =>
      let r := tc.update_seconds step.1 step.2 gs buf rng
      runSeconds rest r.1 r.2.1 r.2.2.1 r.2.2.2

/-- A call into the simulation core within a frame: a `TimeController`
integration step or a `CollisionsController` pass. -/
inductive SimCall where
  | integrate (delta : ℚ) (acts : Actions)
  | collide
deriving Repr

/-- Apply one core call to the threaded world state. -/
def applyCall (c : SimCall) (st : TimeController × GameState × List Event × Nat) :
    TimeController × GameState × List Event × Nat :=
  match c with
  | .integrate d a => st.1.update_seconds d a st.2.1 st.2.2.1 st.2.2.2
  | .collide =>
      let r := CollisionsController.handle_collisions st.2.1 st.1 st.2.2.1
      (r.2.1, r.1, r.2.2, st.2.2.2)

/-- Apply a sequence of core calls in order. -/
def applyCalls (cs : List SimCall) (st : TimeController × GameState × List Event × Nat) :
    TimeController × GameState × List Event × Nat :=
  cs.foldl (fun acc c => applyCall c acc) st

/-! ## Helper lemmas -/

theorem clampQ_eq_self {lo hi x : ℚ} (h1 : lo ≤ x) (h2 : x ≤ hi) : clampQ lo hi x = x := by
  unfold clampQ
  rw [min_eq_right h2, max_eq_right h1]

theorem clampPoint_inBounds {s : Size} (p : Point) (hw : 0 ≤ s.width) (hh : 0 ≤ s.height) :
    (clampPoint s p).inBounds s := by
  unfold clampPoint Point.inBounds
  exact ⟨le_max_left _ _, max_le hw (min_le_left _ _),
    le_max_left _ _, max_le hh (min_le_left _ _)⟩

theorem update_seconds_inv (tc : TimeController) (delta : ℚ) (acts : Actions)
    (gs : GameState) (buf : List Event) (rng : Nat)
    (hw : 0 ≤ gs.size.width) (hh : 0 ≤ gs.size.height)
    (hp : gs.player.pos.inBounds gs.size) :
    (tc.update_seconds delta acts gs buf rng).2.1.size = gs.size ∧
    (tc.update_seconds delta acts gs buf rng).2.1.player.pos.inBounds gs.size := by
  simp only [TimeController.update_seconds]
  split
  · exact ⟨rfl, hp⟩
  · split
    · exact ⟨rfl, clampPoint_inBounds _ hw hh⟩
    · exact ⟨rfl, clampPoint_inBounds _ hw hh⟩

theorem runSeconds_inv (steps : List (ℚ × Actions)) :
    ∀ tc gs buf rng, 0 ≤ gs.size.width → 0 ≤ gs.size.height →
    gs.player.pos.inBounds gs.size →
    (runSeconds steps tc gs buf rng).2.1.size = gs.size ∧
    (runSeconds steps tc gs buf rng).2.1.player.pos.inBounds gs.size := by
  induction steps with
  | nil => exact fun tc gs buf rng _ _ hp => ⟨rfl, hp⟩
  | cons step rest ih =>
      intro tc gs buf rng hw hh hp
      simp only [runSeconds]
      obtain ⟨hsz, hpb⟩ := update_seconds_inv tc step.1 step.2 gs buf rng hw hh hp
      obtain ⟨hsz2, hpb2⟩ := ih _ _ _ _ (hsz ▸ hw) (hsz ▸ hh) (hsz ▸ hpb)
      exact ⟨hsz ▸ hsz2, hsz ▸ hpb2⟩

/-! ## Claims -/

/-- C1: For every sequence of frame updates in which each delta is greater
than or equal to zero, the player's position lies within the arena bounds
after every call to `TimeController.update_seconds` (the integrator clamps it
to the bounds).  Stated over `runSeconds`: since the sequence of steps and
the in-bounds starting state are universally quantified, the conclusion at
every prefix of a run — i.e. after every call — is an instance. -/
theorem c1_player_stays_in_bounds (tc : TimeController) (gs : GameState)
    (buf : List Event) (rng : Nat) (steps : List (ℚ × Actions))
    (hw : 0 ≤ gs.size.width) (hh : 0 ≤ gs.size.height)
    (hp : gs.player.pos.inBounds gs.size)
    (_hd : ∀ p ∈ steps, 0 ≤ p.1) :
    (runSeconds steps tc gs buf rng).2.1.size = gs.size ∧
    (runSeconds steps tc gs buf rng).2.1.player.pos.inBounds gs.size :=
  runSeconds_inv steps tc gs buf rng hw hh hp

/-- Witness for C1 at a concrete run: the arena is 8×6, the player starts in
bounds at the center, and one half-second move-up frame leaves the player
within bounds. -/
theorem c1_player_stays_in_bounds_witness :
    (0 : ℚ) ≤ (Size.mk 8 6).width ∧
    (GameState.new ⟨8, 6⟩ 0).1.player.pos.inBounds (GameState.new ⟨8, 6⟩ 0).1.size ∧
    ((runSeconds [(1/2, ⟨true, false, false, false⟩)] TimeController.new
        (GameState.new ⟨8, 6⟩ 0).1 [] 0).2.1.size = (GameState.new ⟨8, 6⟩ 0).1.size ∧
      (runSeconds [(1/2, ⟨true, false, false, false⟩)] TimeController.new
        (GameState.new ⟨8, 6⟩ 0).1 [] 0).2.1.player.pos.inBounds
        (GameState.new ⟨8, 6⟩ 0).1.size) :=
  ⟨by with_unfolding_all decide, by with_unfolding_all decide,
    c1_player_stays_in_bounds TimeController.new (GameState.new ⟨8, 6⟩ 0).1 [] 0
      [(1/2, ⟨true, false, false, false⟩)]
      (by with_unfolding_all decide) (by with_unfolding_all decide)
      (by with_unfolding_all decide) (by with_unfolding_all decide)⟩

theorem update_seconds_finished (tc : TimeController) (delta : ℚ) (acts : Actions)
    (gs : GameState) (buf : List Event) (rng : Nat) (h : gs.message.isSome = true) :
    tc.update_seconds delta acts gs buf rng = (tc, gs, buf, rng) := by
  unfold TimeController.update_seconds
  rw [if_pos h]

theorem handle_collisions_finished (gs : GameState) (tc : TimeController)
    (buf : List Event) (h : gs.message.isSome = true) :
    CollisionsController.handle_collisions gs tc buf = (gs, tc, buf) := by
  unfold CollisionsController.handle_collisions
  rw [if_pos h]

theorem applyCall_finished (c : SimCall) (tc : TimeController) (gs : GameState)
    (buf : List Event) (rng : Nat) (h : gs.message.isSome = true) :
    applyCall c (tc, gs, buf, rng) = (tc, gs, buf, rng) := by
  cases c with
  | integrate d a => exact update_seconds_finished tc d a gs buf rng h
  | collide => simp [applyCall, handle_collisions_finished gs tc buf h]

/-- C2: Once `game_state.message` is `Some`, no sequence of further
`update_seconds` and `handle_collisions` calls changes the player's or any
obstacle's position or clears the message; only an explicit reset clears it —
and `update_seconds` itself refuses to mutate a finished world even when
invoked directly.  Stated as: every sequence of core calls (each one either a
direct `update_seconds` invocation or a `handle_collisions` pass, in any
order) leaves the entire threaded world state — controller, game state
(hence all positions and the message), event buffer and generator —
exactly unchanged; the singleton sequence `[integrate delta acts]` is the
direct-invocation case — while an explicit `GameState.reset` does clear the
message. -/
theorem c2_finished_world_frozen (cs : List SimCall) (tc : TimeController)
    (gs : GameState) (buf : List Event) (rng : Nat) (h : gs.message.isSome = true) :
    applyCalls cs (tc, gs, buf, rng) = (tc, gs, buf, rng) ∧
    ∀ seed, (gs.reset seed).1.message = none := by
  refine ⟨?_, fun seed => rfl⟩
  induction cs with
  | nil => rfl
  | cons c rest ih =>
      simp only [applyCalls, List.foldl_cons, applyCall_finished c tc gs buf rng h]
      exact ih

/-- Witness for C2: a finished world (message already set) is untouched by an
integration step followed by a collision pass followed by another
integration step, and resetting it clears the message. -/
theorem c2_finished_world_frozen_witness :
    (GameState.mk ⟨8, 6⟩ ⟨⟨1, 1⟩, 10⟩ [] (some gameOverMessage)).message.isSome = true ∧
    (applyCalls [.integrate 1 ⟨true, false, false, false⟩, .collide,
        .integrate 2 ⟨false, false, true, false⟩]
      (TimeController.new, ⟨⟨8, 6⟩, ⟨⟨1, 1⟩, 10⟩, [], some gameOverMessage⟩, [], 0) =
      (TimeController.new, ⟨⟨8, 6⟩, ⟨⟨1, 1⟩, 10⟩, [], some gameOverMessage⟩, [], 0) ∧
    ∀ seed, ((GameState.mk ⟨8, 6⟩ ⟨⟨1, 1⟩, 10⟩ [] (some gameOverMessage)).reset
      seed).1.message = none) :=
  ⟨rfl, c2_finished_world_frozen _ TimeController.new
    ⟨⟨8, 6⟩, ⟨⟨1, 1⟩, 10⟩, [], some gameOverMessage⟩ [] 0 rfl⟩

/-- C3: For every state in which the player's shape overlaps at least one
live obstacle's shape (and the game is not already over), a single call to
`handle_collisions` sets `game_state.message` to the fixed game-over prompt
and appends exactly one `Collision` event to the event buffer, and a
subsequent `update_seconds` call (any delta, any actions, any generator)
leaves all entity positions unchanged — it returns the whole world state
untouched. -/
theorem c3_overlap_is_terminal (gs : GameState) (tc : TimeController) (buf : List Event)
    (hnone : gs.message = none)
    (hhit : ∃ o ∈ gs.obstacles, overlaps gs.player o = true) :
    (CollisionsController.handle_collisions gs tc buf).1.message = some gameOverMessage ∧
    (CollisionsController.handle_collisions gs tc buf).2.2 = buf ++ [Event.Collision] ∧
    ∀ delta acts rng,
      (CollisionsController.handle_collisions gs tc buf).2.1.update_seconds delta acts
        (CollisionsController.handle_collisions gs tc buf).1
        (CollisionsController.handle_collisions gs tc buf).2.2 rng =
      ((CollisionsController.handle_collisions gs tc buf).2.1,
       (CollisionsController.handle_collisions gs tc buf).1,
       (CollisionsController.handle_collisions gs tc buf).2.2, rng) := by
  have hhit' : playerHit gs = true := by
    unfold playerHit
    rw [List.any_eq_true]
    obtain ⟨o, ho, hov⟩ := hhit
    exact ⟨o, ho, hov⟩
  have hdone : CollisionsController.handle_collisions gs tc buf =
      ({ gs with message := some gameOverMessage }, tc, buf ++ [Event.Collision]) := by
    unfold CollisionsController.handle_collisions
    rw [hnone]
    simp [hhit']
  refine ⟨by rw [hdone], by rw [hdone], fun delta acts rng => ?_⟩
  rw [hdone]
  exact update_seconds_finished _ delta acts _ _ rng rfl

/-- Witness for C3: a 100×100 arena with the single obstacle sitting on the
player — the collision pass reports game over, appends one `Collision` event
to the previously empty buffer, and a subsequent one-second integration step
moves nothing. -/
theorem c3_overlap_is_terminal_witness :
    (GameState.mk ⟨100, 100⟩ ⟨⟨50, 50⟩, 10⟩ [⟨⟨55, 50⟩, ⟨-100, 0⟩, 10⟩] none).message = none ∧
    (∃ o ∈ (GameState.mk ⟨100, 100⟩ ⟨⟨50, 50⟩, 10⟩ [⟨⟨55, 50⟩, ⟨-100, 0⟩, 10⟩] none).obstacles,
      overlaps (GameState.mk ⟨100, 100⟩ ⟨⟨50, 50⟩, 10⟩ [⟨⟨55, 50⟩, ⟨-100, 0⟩, 10⟩] none).player
        o = true) ∧
    ((CollisionsController.handle_collisions
        ⟨⟨100, 100⟩, ⟨⟨50, 50⟩, 10⟩, [⟨⟨55, 50⟩, ⟨-100, 0⟩, 10⟩], none⟩
        TimeController.new []).1.message = some gameOverMessage ∧
      (CollisionsController.handle_collisions
        ⟨⟨100, 100⟩, ⟨⟨50, 50⟩, 10⟩, [⟨⟨55, 50⟩, ⟨-100, 0⟩, 10⟩], none⟩
        TimeController.new []).2.2 = [] ++ [Event.Collision] ∧
      ∀ delta acts rng,
        (CollisionsController.handle_collisions
          ⟨⟨100, 100⟩, ⟨⟨50, 50⟩, 10⟩, [⟨⟨55, 50⟩, ⟨-100, 0⟩, 10⟩], none⟩
          TimeController.new []).2.1.update_seconds delta acts
          (CollisionsController.handle_collisions
            ⟨⟨100, 100⟩, ⟨⟨50, 50⟩, 10⟩, [⟨⟨55, 50⟩, ⟨-100, 0⟩, 10⟩], none⟩
            TimeController.new []).1
          (CollisionsController.handle_collisions
            ⟨⟨100, 100⟩, ⟨⟨50, 50⟩, 10⟩, [⟨⟨55, 50⟩, ⟨-100, 0⟩, 10⟩], none⟩
            TimeController.new []).2.2 rng =
        ((CollisionsController.handle_collisions
            ⟨⟨100, 100⟩, ⟨⟨50, 50⟩, 10⟩, [⟨⟨55, 50⟩, ⟨-100, 0⟩, 10⟩], none⟩
            TimeController.new []).2.1,
         (CollisionsController.handle_collisions
            ⟨⟨100, 100⟩, ⟨⟨50, 50⟩, 10⟩, [⟨⟨55, 50⟩, ⟨-100, 0⟩, 10⟩], none⟩
            TimeController.new []).1,
         (CollisionsController.handle_collisions
            ⟨⟨100, 100⟩, ⟨⟨50, 50⟩, 10⟩, [⟨⟨55, 50⟩, ⟨-100, 0⟩, 10⟩], none⟩
            TimeController.new []).2.2, rng)) :=
  ⟨rfl, by with_unfolding_all decide,
    c3_overlap_is_terminal ⟨⟨100, 100⟩, ⟨⟨50, 50⟩, 10⟩, [⟨⟨55, 50⟩, ⟨-100, 0⟩, 10⟩], none⟩
      TimeController.new [] rfl (by with_unfolding_all decide)⟩

/-- The three phases of a frame that touch the simulation core or the event
buffer, used to record in which order the frame runs them. -/
inductive Phase where
  | integration
  | collision
  | drain
deriving DecidableEq, Repr

/-- Function `ApplicationState::update` instrumented with a phase trace: the same
control flow as `ApplicationState.update` (early return without focus,
otherwise the integration step followed by the collision pass), additionally
recording each phase in the order the source invokes it. -/
def ApplicationState.updateTraced (s : ApplicationState) (delta : ℚ) :
    ApplicationState × List Phase :=
  if s.has_focus = false then (s, [])
  else
    let r := s.time_controller.update_seconds delta s.input_controller.actions
      s.game_state s.event_buffer s.rng
    let c := CollisionsController.handle_collisions r.2.1 r.1 r.2.2.1
    ({ s with
        game_state := c.1
        time_controller := c.2.1
        event_buffer := c.2.2
        rng := r.2.2.2 },
     [Phase.integration, Phase.collision])

/-- Function `ApplicationState::draw` instrumented with a phase trace: the event
buffer is drained by `view::play_sounds` during `draw`. -/
def ApplicationState.drawTraced (s : ApplicationState) :
    (ApplicationState × List Event) × List Phase :=
  (s.draw, [Phase.drain])

/-- One full frame of the ggez event loop — `update` then `draw` — with the
phase traces of both concatenated in execution order. -/
def frameTraced (s : ApplicationState) (delta : ℚ) :
    (ApplicationState × List Event) × List Phase :=
  ((s.updateTraced delta).1.drawTraced.1,
   (s.updateTraced delta).2 ++ (s.updateTraced delta).1.drawTraced.2)

/-- C4: Within every (focused) frame, `TimeController.update_seconds` runs
strictly before `CollisionsController.handle_collisions`, and both run
before the event buffer is drained by the presentation layer (`play_sounds`
during `draw`): the frame's phase trace is exactly integration, then
collision, then drain — and the traced update computes the very state
`ApplicationState.update` computes. -/
theorem c4_frame_ordering (s : ApplicationState) (delta : ℚ) (h : s.has_focus = true) :
    (frameTraced s delta).2 = [Phase.integration, Phase.collision, Phase.drain] ∧
    (s.updateTraced delta).1 = s.update delta := by
  constructor
  · simp [frameTraced, ApplicationState.updateTraced, ApplicationState.drawTraced, h]
  · simp [ApplicationState.updateTraced, ApplicationState.update, h]

/-- Witness for C4: a freshly constructed focused application runs the frame
phases in order on a one-second frame. -/
theorem c4_frame_ordering_witness :
    (ApplicationState.new ⟨8, 6⟩ 0).has_focus = true ∧
    (frameTraced (ApplicationState.new ⟨8, 6⟩ 0) 1).2 =
      [Phase.integration, Phase.collision, Phase.drain] ∧
    ((ApplicationState.new ⟨8, 6⟩ 0).updateTraced 1).1 =
      (ApplicationState.new ⟨8, 6⟩ 0).update 1 :=
  ⟨rfl, c4_frame_ordering (ApplicationState.new ⟨8, 6⟩ 0) 1 rfl⟩

/-- C5: For every call to `ApplicationState::update` while `has_focus` is
false, the call returns successfully and leaves `game_state`,
`time_controller`, and the event buffer entirely unchanged — the whole
application state is returned as it was (the Rust function returns `Ok(())`
unconditionally, so success is the totality of the embedding). -/
theorem c5_unfocused_update_skipped (s : ApplicationState) (delta : ℚ)
    (h : s.has_focus = false) :
    s.update delta = s := by
  unfold ApplicationState.update
  rw [if_pos h]

/-- Witness for C5: an unfocused application state is untouched by a
one-second frame update. -/
theorem c5_unfocused_update_skipped_witness :
    ((ApplicationState.new ⟨8, 6⟩ 0).focus_event false).has_focus = false ∧
    ((ApplicationState.new ⟨8, 6⟩ 0).focus_event false).update 1 =
      (ApplicationState.new ⟨8, 6⟩ 0).focus_event false :=
  ⟨rfl, c5_unfocused_update_skipped ((ApplicationState.new ⟨8, 6⟩ 0).focus_event false) 1 rfl⟩

theorem update_seconds_zero (tc : TimeController) (acts : Actions) (gs : GameState)
    (buf : List Event) (rng : Nat)
    (hp : gs.player.pos.inBounds gs.size)
    (ht : tc.spawnTimer < tc.spawnThreshold)
    (ho : ∀ o ∈ gs.obstacles, obstacleExited o = false) :
    tc.update_seconds 0 acts gs buf rng = (tc, gs, buf, rng) := by
  obtain ⟨h1, h2, h3, h4⟩ := hp
  unfold TimeController.update_seconds
  by_cases hm : gs.message.isSome = true
  · rw [if_pos hm]
  · rw [if_neg hm]
    simp only [max_self, mul_zero, add_zero, clampPoint,
      clampQ_eq_self h1 h2, clampQ_eq_self h3 h4]
    rw [if_neg (not_le.mpr ht)]
    have hobs : gs.obstacles.map
        (fun o => { o with pos := (⟨o.pos.x, o.pos.y⟩ : Point) }) = gs.obstacles := by
      simp
    rw [hobs, List.filter_eq_self.mpr (fun o hin => by rw [ho o hin]; rfl)]

/-- The world state after one zero-delta integration step with the given
actions — the function whose iterates C6 is about. -/
def zeroStep (acts : Actions) (st : TimeController × GameState × List Event × Nat) :
    TimeController × GameState × List Event × Nat :=
  st.1.update_seconds 0 acts st.2.1 st.2.2.1 st.2.2.2

/-- C6: Calling `update_seconds` with delta equal to zero, any number of
times in succession, leaves both `GameState` and `TimeController` unchanged
and appends no events to the event buffer (the buffer remains empty if it
was empty).  The hypotheses are the state invariants every reachable world
satisfies: the player is in bounds (C1), the spawn timer sits below its
threshold, and no already-exited obstacle is still in the list. -/
theorem c6_zero_delta_noop (tc : TimeController) (gs : GameState) (buf : List Event)
    (rng : Nat) (acts : Actions) (n : Nat)
    (hp : gs.player.pos.inBounds gs.size)
    (ht : tc.spawnTimer < tc.spawnThreshold)
    (ho : ∀ o ∈ gs.obstacles, obstacleExited o = false) :
    (zeroStep acts)^[n] (tc, gs, buf, rng) = (tc, gs, buf, rng) := by
  have h : zeroStep acts (tc, gs, buf, rng) = (tc, gs, buf, rng) :=
    update_seconds_zero tc acts gs buf rng hp ht ho
  exact Function.iterate_fixed h n

/-- Witness for C6: three successive zero-delta steps on a fresh 8×6 world
with one live obstacle change nothing. -/
theorem c6_zero_delta_noop_witness :
    (GameState.mk ⟨8, 6⟩ ⟨⟨4, 3⟩, 10⟩ [⟨⟨7, 1⟩, ⟨-100, 0⟩, 1⟩] none).player.pos.inBounds
      (Size.mk 8 6) ∧
    TimeController.new.spawnTimer < TimeController.new.spawnThreshold ∧
    (zeroStep ⟨true, false, false, false⟩)^[3]
      (TimeController.new, ⟨⟨8, 6⟩, ⟨⟨4, 3⟩, 10⟩, [⟨⟨7, 1⟩, ⟨-100, 0⟩, 1⟩], none⟩, [], 0) =
      (TimeController.new, ⟨⟨8, 6⟩, ⟨⟨4, 3⟩, 10⟩, [⟨⟨7, 1⟩, ⟨-100, 0⟩, 1⟩], none⟩, [], 0) :=
  ⟨by with_unfolding_all decide, by with_unfolding_all decide,
    c6_zero_delta_noop TimeController.new
      ⟨⟨8, 6⟩, ⟨⟨4, 3⟩, 10⟩, [⟨⟨7, 1⟩, ⟨-100, 0⟩, 1⟩], none⟩ [] 0
      ⟨true, false, false, false⟩ 3
      (by with_unfolding_all decide) (by with_unfolding_all decide)
      (by with_unfolding_all decide)⟩

/-- C7: For every key-down event received while `game_state.message` is
`Some`, the application resets the world before resuming simulation: the
time controller's timers are zeroed (its `new` configuration), the game
state returns to its initial configuration (empty obstacles, canonical
player position for its arena), and the message is cleared. -/
theorem c7_keydown_resets_finished_game (s : ApplicationState) (k : Key)
    (h : s.game_state.message.isSome = true) :
    (s.key_down_event k).time_controller = TimeController.new ∧
    (s.key_down_event k).game_state.obstacles = [] ∧
    (s.key_down_event k).game_state.player = canonicalPlayer s.game_state.size ∧
    (s.key_down_event k).game_state.message = none := by
  simp [ApplicationState.key_down_event, h, ApplicationState.reset, TimeController.reset,
    GameState.reset, GameState.new]

/-- Witness for C7: a key press on a concrete finished world (non-zero
timers, a leftover obstacle, message set) zeroes the timers, empties the
obstacles, recenters the player and clears the message. -/
theorem c7_keydown_resets_finished_game_witness :
    (ApplicationState.mk true ⟨⟨8, 6⟩, ⟨⟨1, 2⟩, 10⟩, [⟨⟨3, 3⟩, ⟨-100, 0⟩, 10⟩],
        some gameOverMessage⟩ ⟨5, 7⟩ ⟨[]⟩ [Event.Collision] 3).game_state.message.isSome
      = true ∧
    ((ApplicationState.mk true ⟨⟨8, 6⟩, ⟨⟨1, 2⟩, 10⟩, [⟨⟨3, 3⟩, ⟨-100, 0⟩, 10⟩],
        some gameOverMessage⟩ ⟨5, 7⟩ ⟨[]⟩ [Event.Collision] 3).key_down_event
        (Key.other 42)).time_controller = TimeController.new ∧
    ((ApplicationState.mk true ⟨⟨8, 6⟩, ⟨⟨1, 2⟩, 10⟩, [⟨⟨3, 3⟩, ⟨-100, 0⟩, 10⟩],
        some gameOverMessage⟩ ⟨5, 7⟩ ⟨[]⟩ [Event.Collision] 3).key_down_event
        (Key.other 42)).game_state.obstacles = [] ∧
    ((ApplicationState.mk true ⟨⟨8, 6⟩, ⟨⟨1, 2⟩, 10⟩, [⟨⟨3, 3⟩, ⟨-100, 0⟩, 10⟩],
        some gameOverMessage⟩ ⟨5, 7⟩ ⟨[]⟩ [Event.Collision] 3).key_down_event
        (Key.other 42)).game_state.player =
      canonicalPlayer (ApplicationState.mk true ⟨⟨8, 6⟩, ⟨⟨1, 2⟩, 10⟩,
        [⟨⟨3, 3⟩, ⟨-100, 0⟩, 10⟩], some gameOverMessage⟩ ⟨5, 7⟩ ⟨[]⟩ [Event.Collision]
        3).game_state.size ∧
    ((ApplicationState.mk true ⟨⟨8, 6⟩, ⟨⟨1, 2⟩, 10⟩, [⟨⟨3, 3⟩, ⟨-100, 0⟩, 10⟩],
        some gameOverMessage⟩ ⟨5, 7⟩ ⟨[]⟩ [Event.Collision] 3).key_down_event
        (Key.other 42)).game_state.message = none :=
  ⟨rfl, c7_keydown_resets_finished_game
    (ApplicationState.mk true ⟨⟨8, 6⟩, ⟨⟨1, 2⟩, 10⟩, [⟨⟨3, 3⟩, ⟨-100, 0⟩, 10⟩],
      some gameOverMessage⟩ ⟨5, 7⟩ ⟨[]⟩ [Event.Collision] 3) (Key.other 42) rfl⟩

/-- C8: For every negative time delta passed to `update_seconds`, the call
behaves exactly as a call with delta equal to zero — the malformed input is
treated as zero, not propagated and not applied to integration. -/
theorem c8_negative_delta_as_zero (tc : TimeController) (delta : ℚ) (acts : Actions)
    (gs : GameState) (buf : List Event) (rng : Nat) (h : delta < 0) :
    tc.update_seconds delta acts gs buf rng = tc.update_seconds 0 acts gs buf rng := by
  unfold TimeController.update_seconds
  rw [max_eq_right (le_of_lt h), max_self]

/-- Witness for C8: a `-1` second delta on a concrete live world acts as a
zero delta. -/
theorem c8_negative_delta_as_zero_witness :
    (-1 : ℚ) < 0 ∧
    TimeController.new.update_seconds (-1) ⟨true, false, false, false⟩
        ⟨⟨8, 6⟩, ⟨⟨4, 3⟩, 10⟩, [], none⟩ [] 0 =
      TimeController.new.update_seconds 0 ⟨true, false, false, false⟩
        ⟨⟨8, 6⟩, ⟨⟨4, 3⟩, 10⟩, [], none⟩ [] 0 :=
  ⟨by with_unfolding_all decide,
    c8_negative_delta_as_zero TimeController.new (-1) ⟨true, false, false, false⟩
      ⟨⟨8, 6⟩, ⟨⟨4, 3⟩, 10⟩, [], none⟩ [] 0 (by with_unfolding_all decide)⟩

/-- C9: `ApplicationState::reset` appends a `GameStart` event to the event
buffer without clearing it, so any events already buffered before the reset
survive it and are still delivered at the next drain (they come out of
`draw` ahead of the `GameStart`); `GameStart` is emitted only by `reset`,
never during initial construction in `ApplicationState::new`, whose buffer
is empty. -/
theorem c9_gamestart_only_on_reset (s : ApplicationState) (size : Size) (seed : Nat) :
    s.reset.event_buffer = s.event_buffer ++ [Event.GameStart] ∧
    s.reset.draw.2 = s.event_buffer ++ [Event.GameStart] ∧
    (ApplicationState.new size seed).event_buffer = [] :=
  ⟨rfl, rfl, rfl⟩

/-- The key just pressed is always held afterwards. -/
theorem key_press_mem (ic : InputController) (k : Key) : k ∈ (ic.key_press k).held := by
  unfold InputController.key_press
  split
  · assumption
  · exact List.mem_cons_self _ _

/-- C10: In `key_down_event`, the same key press that dismisses a `Some`
game-over message (triggering the reset) is also forwarded to
`InputController::key_press` afterwards, so that key is registered as a held
input action in the freshly reset game (whose message is cleared). -/
theorem c10_dismissing_key_registered (s : ApplicationState) (k : Key)
    (h : s.game_state.message.isSome = true) :
    k ∈ (s.key_down_event k).input_controller.held ∧
    (s.key_down_event k).game_state.message = none := by
  unfold ApplicationState.key_down_event
  rw [if_pos h]
  exact ⟨key_press_mem _ k, rfl⟩

/-- Witness for C10: pressing the up key on a finished world leaves the up
key held in the reset game with the message gone. -/
theorem c10_dismissing_key_registered_witness :
    (ApplicationState.mk true ⟨⟨8, 6⟩, ⟨⟨1, 2⟩, 10⟩, [], some gameOverMessage⟩
        ⟨5, 7⟩ ⟨[]⟩ [] 3).game_state.message.isSome = true ∧
    Key.up ∈ ((ApplicationState.mk true ⟨⟨8, 6⟩, ⟨⟨1, 2⟩, 10⟩, [], some gameOverMessage⟩
        ⟨5, 7⟩ ⟨[]⟩ [] 3).key_down_event Key.up).input_controller.held ∧
    ((ApplicationState.mk true ⟨⟨8, 6⟩, ⟨⟨1, 2⟩, 10⟩, [], some gameOverMessage⟩
        ⟨5, 7⟩ ⟨[]⟩ [] 3).key_down_event Key.up).game_state.message = none :=
  ⟨rfl, c10_dismissing_key_registered
    (ApplicationState.mk true ⟨⟨8, 6⟩, ⟨⟨1, 2⟩, 10⟩, [], some gameOverMessage⟩
      ⟨5, 7⟩ ⟨[]⟩ [] 3) Key.up rfl⟩

end Rocket
